import Mathlib

/-!
Verification of the `etl-poweroutages` ETL task (src/task.ts) against its
natural-language specification.

Modelling conventions (shallow embedding of src/task.ts):
* JavaScript numbers are modelled as `ℚ` (no NaN/Infinity in the data model;
  where the code can observe NaN — the `Number('Min Customers')` conversion —
  the value is modelled as `Option ℚ` with `none` standing for NaN).
* Timestamps are modelled as epoch milliseconds (`Int`).  The platform
  functions `new Date(s).toISOString()` / `Date.parse` and the
  `toLocaleString('en-NZ', { timeZone: 'Pacific/Auckland' })` formatter are
  external library concerns; they enter the model as explicit function
  parameters `parseMs : String → Int` and `fmtNZ : String → String`, so every
  theorem holds for an arbitrary platform date implementation.
* Optional JS fields are `Option`; JS truthiness on an optional string
  (`undefined` and `''` are falsy) is `truthyStr`.
* The effectful run (`Task.control`) is modelled as a pure function returning
  the ordered list of outbound effects (the HTTP fetch, the submission) plus
  the outcome (`none` for success, `some e` for a thrown error), so that
  "fails before any network call" is the statement `effects = []`.
-/

namespace PowerOutages

/-- JS truthiness of an optional string: `undefined` and `''` are falsy,
every other string is truthy.  Mirrors the `outage.estimatedRestoration ?`,
`env['Utility Filter'] ?` etc. tests in src/task.ts. -/
def truthyStr : Option String → Bool
  | none => false
  | some s => if s = "" then false else true

/-- `utility` object of a power-outage record (src/task.ts interface
`PowerOutage.utility`). -/
structure Utility where
  name : String
  id : String
deriving DecidableEq, Repr

/-- `location.coordinates` (src/task.ts). -/
structure Coordinates where
  latitude : ℚ
  longitude : ℚ
deriving DecidableEq, Repr

/-- `location` object of a record (src/task.ts). -/
structure OutageLocation where
  coordinates : Coordinates
  areas : List String
  streets : List String
deriving DecidableEq, Repr

/-- optional `metadata` object of a record (src/task.ts). -/
structure OutageMetadata where
  feeder : Option String
  lastUpdate : Option String
  aggregationType : Option String
  outageCount : Option ℚ
deriving DecidableEq, Repr

/-- One outage record, the unit of work (src/task.ts interface `PowerOutage`). -/
structure PowerOutage where
  outageId : String
  utility : Utility
  region : String
  regionCode : String
  outageStart : String
  estimatedRestoration : Option String
  cause : String
  status : String
  outageType : Option String
  customersAffected : ℚ
  crewStatus : Option String
  location : OutageLocation
  metadata : Option OutageMetadata
deriving DecidableEq, Repr

/-- `summary` of the API response (src/task.ts interface
`PowerOutagesResponse.summary`). -/
structure ResponseSummary where
  totalUtilities : ℚ
  totalOutages : ℚ
  totalCustomersAffected : ℚ
deriving DecidableEq, Repr

/-- One entry of the `utilities` list of the API response (src/task.ts). -/
structure UtilityInfo where
  name : String
  id : String
  status : String
  outageCount : ℚ
deriving DecidableEq, Repr

/-- The API response envelope (src/task.ts interface `PowerOutagesResponse`). -/
structure PowerOutagesResponse where
  version : String
  timestamp : String
  summary : ResponseSummary
  utilities : List UtilityInfo
  outages : List PowerOutage
deriving DecidableEq, Repr

/-- `Array.prototype.join(', ')`. -/
def joinComma (xs : List String) : String :=
  String.intercalate ", " xs

/-- The content of the `Areas:` remarks line:
`outage.location.areas?.join(', ') || 'Unknown'` (src/task.ts line 170).
`areas` is a required field of the schema, so the optional chain never
produces `undefined`; `||` replaces a falsy (empty) join by `'Unknown'`. -/
def areasText (o : PowerOutage) : String :=
  if joinComma o.location.areas = "" then "Unknown" else joinComma o.location.areas

/-- The interpolation `${outage.metadata.outageCount}` of the `Aggregated:`
line (src/task.ts line 177); an absent `outageCount` prints as `undefined`. -/
def outCountText (o : PowerOutage) : String :=
  match o.metadata.bind (fun m => m.outageCount) with
  | some n => toString n
  | none => "undefined"

/-- The ordered remarks lines built in src/task.ts lines 164-178, before the
`join('\n')`.  Conditional lines are the array-spread entries of the source:
`Streets` when the streets list is non-empty, `Estimated Restoration`,
`Type`, `Crew Status` when the corresponding optional field is truthy,
`Feeder` / `Aggregated` when the optional-chained metadata field is truthy. -/
def remarksLines (fmtNZ : String → String) (o : PowerOutage) : List String :=
  ["Utility: " ++ o.utility.name,
   "Customers Affected: " ++ toString o.customersAffected,
   "Status: " ++ o.status,
   "Cause: " ++ o.cause,
   "Region: " ++ o.region,
   "Areas: " ++ areasText o]
  ++ (if 0 < o.location.streets.length
      then ["Streets: " ++ joinComma o.location.streets] else [])
  ++ ["Outage Start: " ++ fmtNZ o.outageStart ++ " NZT"]
  ++ (if truthyStr o.estimatedRestoration
      then ["Estimated Restoration: " ++ fmtNZ (o.estimatedRestoration.getD "") ++ " NZT"]
      else [])
  ++ (if truthyStr o.outageType then ["Type: " ++ o.outageType.getD ""] else [])
  ++ (if truthyStr o.crewStatus then ["Crew Status: " ++ o.crewStatus.getD ""] else [])
  ++ (if truthyStr (o.metadata.bind (fun m => m.feeder))
      then ["Feeder: " ++ (o.metadata.bind (fun m => m.feeder)).getD ""] else [])
  ++ (if truthyStr (o.metadata.bind (fun m => m.aggregationType))
      then ["Aggregated: " ++ outCountText o ++ " outages"] else [])

/-- The display callsign
`${outage.utility.name} - ${outage.location.areas?.[0] || outage.region}`
(src/task.ts line 184): the first area when it exists and is truthy,
otherwise the region. -/
def callsignOf (o : PowerOutage) : String :=
  o.utility.name ++ " - " ++
    (match o.location.areas.head? with
     | some a => if a = "" then o.region else a
     | none => o.region)

/-- The fixed incident icon tag (src/task.ts `Task.ICON`). -/
def taskIcon : String :=
  "bb4df0a6-ca8d-4ba8-bb9e-3deb97ff015e:Incidents/INC.04.PowerOutage"

/-- One output feature as pushed in src/task.ts lines 180-199.  `time`,
`start` and `stale` are epoch-millisecond instants (the source holds their
ISO rendering, an injective image under `toISOString`); `geomType` and
`coordinates` flatten the GeoJSON `geometry` object. -/
structure Feature where
  id : String
  callsign : String
  cotType : String
  icon : String
  time : Int
  start : Int
  stale : Int
  metadata : PowerOutage
  remarks : String
  geomType : String
  coordinates : ℚ × ℚ
deriving DecidableEq, Repr

/-- The per-record transform of src/task.ts lines 160-199: one outage record
to one feature.  `parseMs` models `Date.parse`-style string-to-instant
conversion, `now` models `Date.now()`, `fmtNZ` the locale formatter. -/
def makeFeature (fmtNZ : String → String) (parseMs : String → Int) (now : Int)
    (o : PowerOutage) : Feature where
  id := "poweroutage-" ++ o.outageId
  callsign := callsignOf o
  cotType := "a-f-X-i"
  icon := taskIcon
  time := parseMs o.outageStart
  start := parseMs o.outageStart
  stale :=
    if truthyStr o.estimatedRestoration
    then parseMs (o.estimatedRestoration.getD "")
    else now + 60 * 60 * 1000
  metadata := o
  remarks := String.intercalate "\n" (remarksLines fmtNZ o)
  geomType := "Point"
  coordinates := (o.location.coordinates.longitude, o.location.coordinates.latitude)

/-- The resolved task configuration (src/task.ts `Env`).  `minCustomers` is
the result of the JS conversion `Number(env['Min Customers'])`, with `none`
standing for NaN; the two optional filters are absent (`none`) when unset. -/
structure Env where
  apiUrl : String
  minCustomers : Option ℚ
  utilityFilter : Option String
  outageTypeFilter : Option String
deriving DecidableEq, Repr

/-- The query parameters appended in src/task.ts lines 133-143, in source
order: `minCustomers` only when strictly positive, `utility` and
`outageType` only when the configured value is truthy. -/
def buildParams (minC : ℚ) (env : Env) : List (String × String) :=
  (if 0 < minC then [("minCustomers", toString minC)] else [])
  ++ (if truthyStr env.utilityFilter
      then [("utility", env.utilityFilter.getD "")] else [])
  ++ (if truthyStr env.outageTypeFilter
      then [("outageType", env.outageTypeFilter.getD "")] else [])

/-- `params.toString()` (percent-encoding abstracted away). -/
def paramText (ps : List (String × String)) : String :=
  String.intercalate "&" (ps.map (fun p => p.1 ++ "=" ++ p.2))

/-- The final request URL (src/task.ts lines 132-147): the base URL, plus
`?` and the query string when the latter is non-empty. -/
def buildUrl (minC : ℚ) (env : Env) : String :=
  if paramText (buildParams minC env) = "" then env.apiUrl
  else env.apiUrl ++ "?" ++ paramText (buildParams minC env)

/-- The upstream HTTP response as observed by src/task.ts lines 151-157:
`ok`, `status`, `statusText`, and the JSON body (already shaped — the source
casts without validation). -/
structure FetchResult where
  ok : Bool
  status : Nat
  statusText : String
  body : PowerOutagesResponse
deriving DecidableEq, Repr

/-- The errors thrown by `Task.control`: the configuration error of
src/task.ts line 129 and the transport error of line 154 (carrying status
code and status text). -/
inductive TaskError where
  | configError (msg : String)
  | transportError (status : Nat) (statusText : String)
deriving DecidableEq, Repr

/-- The feature collection submitted at src/task.ts lines 202-207. -/
structure FeatureCollection where
  fcType : String
  features : List Feature
deriving DecidableEq, Repr

/-- The outbound side effects of one run, in order. -/
inductive Effect where
  | fetchEff (url : String)
  | submitEff (fc : FeatureCollection)
deriving DecidableEq, Repr

/-- Result of one run: the ordered outbound effects that happened, and the
outcome (`none` = success, `some e` = the error thrown). -/
structure RunResult where
  effects : List Effect
  outcome : Option TaskError
deriving DecidableEq, Repr

/-- `Task.control` (src/task.ts lines 123-212) as a pure function of the
resolved configuration and the HTTP response: validate `minCustomers`
(NaN or negative throws before the fetch), build the URL, fetch, throw on a
non-ok status, map every outage of the body to a feature, submit the
collection. -/
def runTask (fmtNZ : String → String) (parseMs : String → Int) (now : Int)
    (env : Env) (res : FetchResult) : RunResult :=
  match env.minCustomers with
  | none => ⟨[], some (TaskError.configError "Invalid minimum customers value")⟩
  | some minC =>
    if minC < 0 then
      ⟨[], some (TaskError.configError "Invalid minimum customers value")⟩
    else
      let url := buildUrl minC env
      if res.ok then
        let features := res.body.outages.map (makeFeature fmtNZ parseMs now)
        ⟨[Effect.fetchEff url, Effect.submitEff ⟨"FeatureCollection", features⟩], none⟩
      else
        ⟨[Effect.fetchEff url], some (TaskError.transportError res.status res.statusText)⟩

/-- The features handed to `submit` during a run (empty when the run failed
before submission). -/
def submittedFeatures (r : RunResult) : List Feature :=
  r.effects.foldr
    (fun e acc =>
      match e with
      | Effect.submitEff fc => fc.features ++ acc
      | Effect.fetchEff _ => acc)
    []

/-! ### Concrete sample data used by counterexamples and witnesses -/

/-- A record with no optional field set, one area, no street. -/
def baseOutage : PowerOutage where
  outageId := "ORION-12345"
  utility := ⟨"Orion Group", "ORION_NZ"⟩
  region := "Canterbury"
  regionCode := "NZ-CAN"
  outageStart := "2025-01-01T10:00:00Z"
  estimatedRestoration := none
  cause := "Weather"
  status := "active"
  outageType := none
  customersAffected := 500
  crewStatus := none
  location := ⟨⟨-43, 172⟩, ["Ponsonby"], []⟩
  metadata := none

/-- A metadata object with truthy `feeder` and `aggregationType`. -/
def fullMd : OutageMetadata :=
  ⟨some "FDR-1", none, some "regional", some 4⟩

/-- A record with every optional field truthy and a non-empty streets list. -/
def fullOutage : PowerOutage :=
  { baseOutage with
    estimatedRestoration := some "2025-01-02T03:00:00Z"
    outageType := some "unplanned"
    crewStatus := some "En route"
    metadata := some fullMd
    location := ⟨⟨-43, 172⟩, ["Ponsonby"], ["Queen St", "High St"]⟩ }

/-- A record affecting fewer customers than any positive threshold. -/
def lowOutage : PowerOutage :=
  { baseOutage with outageId := "ORION-1", customersAffected := 0 }

/-- Configuration with `Min Customers` resolved to 5 and no optional filter. -/
def envMin5 : Env :=
  ⟨"https://utils.tak.nz/power-outages/outages", some 5, none, none⟩

/-- Configuration whose `Min Customers` did not parse (`Number` gave NaN). -/
def envNaN : Env :=
  ⟨"https://utils.tak.nz/power-outages/outages", none, none, none⟩

/-- Configuration with the default threshold 0 and a utility filter. -/
def envFiltered : Env :=
  ⟨"https://utils.tak.nz/power-outages/outages", some 0, some "ORION_NZ", none⟩

/-- A successful response carrying only `lowOutage`. -/
def resLow : FetchResult :=
  ⟨true, 200, "OK", ⟨"1.0", "2025-01-01T10:05:00Z", ⟨1, 1, 0⟩, [], [lowOutage]⟩⟩

/-- A failed response: HTTP 503. -/
def res503 : FetchResult :=
  ⟨false, 503, "Service Unavailable", ⟨"1.0", "", ⟨0, 0, 0⟩, [], []⟩⟩

/-! ### C1 — remarks line count and order -/

/-- C1, counterexample: for a record with every optional field present
(truthy `estimatedRestoration`, `outageType`, `crewStatus`,
`metadata.feeder`, `metadata.aggregationType`) and a non-empty streets
list, the remarks list built by the transformer has 13 lines, not the 12
the claim states. -/
theorem C1_counterexample :
    truthyStr fullOutage.estimatedRestoration = true
    ∧ truthyStr fullOutage.outageType = true
    ∧ truthyStr fullOutage.crewStatus = true
    ∧ truthyStr (fullOutage.metadata.bind (fun m => m.feeder)) = true
    ∧ truthyStr (fullOutage.metadata.bind (fun m => m.aggregationType)) = true
    ∧ fullOutage.location.streets ≠ []
    ∧ (remarksLines (fun s => s) fullOutage).length = 13
    ∧ (remarksLines (fun s => s) fullOutage).length ≠ 12 := by
  decide

/-- C1 (amended): with every optional field truthy and streets non-empty the
remarks list is exactly the 13 documented lines — Utility, Customers
Affected, Status, Cause, Region, Areas, Streets, Outage Start, Estimated
Restoration, Type, Crew Status, Feeder, Aggregated — in that order, joined
by a single newline by the transformer. -/
theorem C1_remarks_thirteen_lines (fmtNZ : String → String) (o : PowerOutage)
    (er ty cs fd ag : String) (md : OutageMetadata)
    (hER : o.estimatedRestoration = some er) (hER0 : er ≠ "")
    (hTy : o.outageType = some ty) (hTy0 : ty ≠ "")
    (hCs : o.crewStatus = some cs) (hCs0 : cs ≠ "")
    (hMd : o.metadata = some md)
    (hFd : md.feeder = some fd) (hFd0 : fd ≠ "")
    (hAg : md.aggregationType = some ag) (hAg0 : ag ≠ "")
    (hSt : o.location.streets ≠ []) :
    remarksLines fmtNZ o =
      ["Utility: " ++ o.utility.name,
       "Customers Affected: " ++ toString o.customersAffected,
       "Status: " ++ o.status,
       "Cause: " ++ o.cause,
       "Region: " ++ o.region,
       "Areas: " ++ areasText o,
       "Streets: " ++ joinComma o.location.streets,
       "Outage Start: " ++ fmtNZ o.outageStart ++ " NZT",
       "Estimated Restoration: " ++ fmtNZ er ++ " NZT",
       "Type: " ++ ty,
       "Crew Status: " ++ cs,
       "Feeder: " ++ fd,
       "Aggregated: " ++ outCountText o ++ " outages"]
    ∧ (remarksLines fmtNZ o).length = 13 := by
  have hlen : 0 < o.location.streets.length := List.length_pos.mpr hSt
  constructor
  · simp [remarksLines, truthyStr, hER, hER0, hTy, hTy0, hCs, hCs0, hMd, hFd,
      hFd0, hAg, hAg0, hlen, Option.bind]
  · simp [remarksLines, truthyStr, hER, hER0, hTy, hTy0, hCs, hCs0, hMd, hFd,
      hFd0, hAg, hAg0, hlen, Option.bind]

/-- C1, witness: the amended theorem evaluated at the concrete `fullOutage`. -/
theorem C1_witness :
    remarksLines (fun s => s) fullOutage =
      ["Utility: Orion Group",
       "Customers Affected: 500",
       "Status: active",
       "Cause: Weather",
       "Region: Canterbury",
       "Areas: Ponsonby",
       "Streets: Queen St, High St",
       "Outage Start: 2025-01-01T10:00:00Z NZT",
       "Estimated Restoration: 2025-01-02T03:00:00Z NZT",
       "Type: unplanned",
       "Crew Status: En route",
       "Feeder: FDR-1",
       "Aggregated: 4 outages"]
    ∧ (remarksLines (fun s => s) fullOutage).length = 13 := by
  have h := C1_remarks_thirteen_lines (fun s => s) fullOutage
    "2025-01-02T03:00:00Z" "unplanned" "En route" "FDR-1" "regional" fullMd
    rfl (by decide) rfl (by decide) rfl (by decide) rfl rfl (by decide) rfl
    (by decide) (by decide)
  exact ⟨by rw [h.1]; decide, h.2⟩

/-! ### C7 — stable identifier -/

/-- C7: every emitted feature's identifier is `"poweroutage-"` followed by
the record's `outageId`, and the identifier does not depend on the run
(formatter, date parser, or generation instant) — the same record yields
the same identifier on every run. -/
theorem C7_identifier (fmtNZ : String → String) (parseMs : String → Int)
    (now : Int) (o : PowerOutage) :
    (makeFeature fmtNZ parseMs now o).id = "poweroutage-" ++ o.outageId
    ∧ ∀ (fmtNZ2 : String → String) (parseMs2 : String → Int) (now2 : Int),
        (makeFeature fmtNZ parseMs now o).id
          = (makeFeature fmtNZ2 parseMs2 now2 o).id := by
  exact ⟨rfl, fun _ _ _ => rfl⟩

/-! ### C9 — verbatim metadata round-trip -/

/-- C9: the original record is embedded verbatim as the feature's metadata
payload, so every field of the record is recoverable unchanged from the
emitted feature. -/
theorem C9_roundtrip (fmtNZ : String → String) (parseMs : String → Int)
    (now : Int) (o : PowerOutage) :
    (makeFeature fmtNZ parseMs now o).metadata = o := by
  rfl

/-! ### C8 — callsign -/

/-- A record whose areas list is non-empty but starts with the empty
string. -/
def emptyAreaOutage : PowerOutage :=
  { baseOutage with location := ⟨⟨-43, 172⟩, [""], []⟩ }

/-- C8, counterexample: the claim says the callsign uses the first element
of `location.areas` whenever that list is non-empty; but for a record whose
first area is the empty string (a non-empty list), the code's truthiness
test `areas?.[0] ||` rejects it and the callsign falls back to the region. -/
theorem C8_counterexample :
    emptyAreaOutage.location.areas ≠ []
    ∧ callsignOf emptyAreaOutage
        ≠ emptyAreaOutage.utility.name ++ " - "
            ++ emptyAreaOutage.location.areas.headD ""
    ∧ callsignOf emptyAreaOutage
        = emptyAreaOutage.utility.name ++ " - " ++ emptyAreaOutage.region := by
  decide

/-- C8 (amended): the callsign is the utility name, `" - "`, then the first
element of `location.areas` when the list is non-empty and its first
element is itself non-empty; when the list is empty or its first element is
the empty string, the callsign falls back to the record's region. -/
theorem C8_callsign (o : PowerOutage) :
    (∀ a, o.location.areas.head? = some a → a ≠ "" →
       callsignOf o = o.utility.name ++ " - " ++ a)
    ∧ (o.location.areas = [] ∨ o.location.areas.head? = some "" →
       callsignOf o = o.utility.name ++ " - " ++ o.region) := by
  constructor
  · intro a ha ha0
    simp [callsignOf, ha, ha0]
  · intro h
    rcases h with h | h
    · simp [callsignOf, h]
    · simp [callsignOf, h]

/-- C8, witness: the amended theorem at `baseOutage` (first area
`"Ponsonby"`) and, via its fallback part, at `emptyAreaOutage`. -/
theorem C8_witness :
    callsignOf baseOutage = baseOutage.utility.name ++ " - " ++ "Ponsonby" :=
  (C8_callsign baseOutage).1 "Ponsonby" rfl (by decide)

/-! ### C3 — staleness instant -/

/-- C3: the feature's `stale` instant is the instant parsed from
`estimatedRestoration` when that field is present (with a truthy, i.e.
non-empty, value — the empty-string edge is the subject of C10), and the
generation instant plus exactly 3,600,000 ms when the field is absent. -/
theorem C3_stale (fmtNZ : String → String) (parseMs : String → Int)
    (now : Int) (o : PowerOutage) :
    (∀ s, o.estimatedRestoration = some s → s ≠ "" →
       (makeFeature fmtNZ parseMs now o).stale = parseMs s)
    ∧ (o.estimatedRestoration = none →
       (makeFeature fmtNZ parseMs now o).stale = now + 3600000) := by
  constructor
  · intro s hs hs0
    simp [makeFeature, truthyStr, hs, hs0]
  · intro h
    simp [makeFeature, truthyStr, h]

/-- C3, witness: a record with `estimatedRestoration` present gets the
parsed instant; `baseOutage` (absent) gets `now + 3600000`. -/
theorem C3_witness :
    (makeFeature (fun s => s) (fun _ => 42) 1000 fullOutage).stale = 42
    ∧ (makeFeature (fun s => s) (fun _ => 42) 1000 baseOutage).stale
        = 1000 + 3600000 :=
  ⟨(C3_stale (fun s => s) (fun _ => 42) 1000 fullOutage).1
      "2025-01-02T03:00:00Z" rfl (by decide),
   (C3_stale (fun s => s) (fun _ => 42) 1000 baseOutage).2 rfl⟩

/-! ### C10 — empty string behaves as absent -/

/-- C10: because presence is tested by JS truthiness, an optional string
field set to the empty string behaves exactly like an absent field: with
`estimatedRestoration = ""` the stale instant defaults to generation time
plus one hour and the remarks equal those of the record with the field
removed; likewise empty-string `outageType`, `crewStatus`,
`metadata.feeder` and `metadata.aggregationType` produce no corresponding
remarks line. -/
theorem C10_empty_string_as_absent (fmtNZ : String → String)
    (parseMs : String → Int) (now : Int) (o : PowerOutage) :
    (o.estimatedRestoration = some "" →
       (makeFeature fmtNZ parseMs now o).stale = now + 3600000
       ∧ remarksLines fmtNZ o
           = remarksLines fmtNZ { o with estimatedRestoration := none })
    ∧ (o.outageType = some "" →
       remarksLines fmtNZ o = remarksLines fmtNZ { o with outageType := none })
    ∧ (o.crewStatus = some "" →
       remarksLines fmtNZ o = remarksLines fmtNZ { o with crewStatus := none })
    ∧ (∀ md, o.metadata = some md → md.feeder = some "" →
       remarksLines fmtNZ o
         = remarksLines fmtNZ { o with metadata := some { md with feeder := none } })
    ∧ (∀ md, o.metadata = some md → md.aggregationType = some "" →
       remarksLines fmtNZ o
         = remarksLines fmtNZ
             { o with metadata := some { md with aggregationType := none } }) := by
  refine ⟨fun h => ⟨?_, ?_⟩, fun h => ?_, fun h => ?_,
    fun md hmd h => ?_, fun md hmd h => ?_⟩
  · simp [makeFeature, truthyStr, h]
  · simp [remarksLines, truthyStr, areasText, outCountText, h]
  · simp [remarksLines, truthyStr, areasText, outCountText, h]
  · simp [remarksLines, truthyStr, areasText, outCountText, h]
  · simp [remarksLines, truthyStr, areasText, outCountText, hmd, h]
  · simp [remarksLines, truthyStr, areasText, outCountText, hmd, h]

/-- A record whose `estimatedRestoration` is set to the empty string. -/
def emptyEROutage : PowerOutage :=
  { baseOutage with estimatedRestoration := some "" }

/-- C10, witness: the theorem's first part at the concrete record with
`estimatedRestoration = ""`. -/
theorem C10_witness :
    (makeFeature (fun s => s) (fun _ => 42) 1000 emptyEROutage).stale
        = 1000 + 3600000
    ∧ remarksLines (fun s => s) emptyEROutage
        = remarksLines (fun s => s)
            { emptyEROutage with estimatedRestoration := none } :=
  (C10_empty_string_as_absent (fun s => s) (fun _ => 42) 1000 emptyEROutage).1 rfl

/-! ### C2 — no local minimum-customers re-validation -/

/-- C2, counterexample: with the threshold configured to 5, a successful
response containing one record with `customersAffected = 0` still yields
one submitted feature carrying that record — the transform loop maps every
record of the body and never compares `customersAffected` with the
threshold, contrary to the claim that sub-threshold records are excluded. -/
theorem C2_counterexample :
    envMin5.minCustomers = some 5
    ∧ (0 : ℚ) < 5
    ∧ (submittedFeatures
          (runTask (fun s => s) (fun _ => 0) 0 envMin5 resLow)).map
        (fun f => f.metadata.customersAffected) = [0]
    ∧ (runTask (fun s => s) (fun _ => 0) 0 envMin5 resLow).outcome = none := by
  decide

/-- C2 (amended): the transformer does not re-validate the threshold: for
every valid configuration and every successful response, the submitted
features are exactly the per-record transform of every outage in the body,
in order, whatever their `customersAffected` — threshold filtering is
delegated entirely to the upstream query string. -/
theorem C2_no_refilter (fmtNZ : String → String) (parseMs : String → Int)
    (now : Int) (env : Env) (res : FetchResult) (m : ℚ)
    (hm : env.minCustomers = some m) (h0 : 0 ≤ m) (hok : res.ok = true) :
    submittedFeatures (runTask fmtNZ parseMs now env res)
      = res.body.outages.map (makeFeature fmtNZ parseMs now)
    ∧ (submittedFeatures (runTask fmtNZ parseMs now env res)).length
        = res.body.outages.length := by
  have hneg : ¬ m < 0 := not_lt.mpr h0
  constructor
  · simp [runTask, hm, hneg, hok, submittedFeatures]
  · simp [runTask, hm, hneg, hok, submittedFeatures]

/-- C2, witness: the amended theorem at the concrete threshold-5 run over a
single sub-threshold record. -/
theorem C2_witness :
    submittedFeatures (runTask (fun s => s) (fun _ => 0) 0 envMin5 resLow)
      = resLow.body.outages.map (makeFeature (fun s => s) (fun _ => 0) 0) :=
  (C2_no_refilter (fun s => s) (fun _ => 0) 0 envMin5 resLow 5 rfl
    (by decide) rfl).1

/-! ### C4 — configuration gate before any network call -/

/-- C4: the run throws the configuration error exactly when `Min Customers`
resolved to NaN or to a negative number, and in that case no effect at all
happens — no fetch, no submission; with a valid (non-negative) value no
configuration error is raised. -/
theorem C4_config_gate (fmtNZ : String → String) (parseMs : String → Int)
    (now : Int) (env : Env) (res : FetchResult) :
    ((∃ msg, (runTask fmtNZ parseMs now env res).outcome
        = some (TaskError.configError msg))
      ↔ (env.minCustomers = none ∨ ∃ m, env.minCustomers = some m ∧ m < 0))
    ∧ ((env.minCustomers = none ∨ ∃ m, env.minCustomers = some m ∧ m < 0) →
      (runTask fmtNZ parseMs now env res).effects = []) := by
  rcases henv : env.minCustomers with _ | m
  · constructor
    · simp [runTask, henv]
    · intro _
      simp [runTask, henv]
  · by_cases hm : m < 0
    · constructor
      · simp [runTask, henv, hm]
      · intro _
        simp [runTask, henv, hm]
    · constructor
      · by_cases hok : res.ok
        · simp [runTask, henv, hm, hok]
        · simp [runTask, henv, hm, hok]
      · intro h
        exfalso
        rcases h with h | ⟨x, hx, hx0⟩
        · simp at h
        · rw [Option.some_inj] at hx
          subst hx
          exact hm hx0

/-- C4, witness: with `Min Customers` resolved to NaN the run fails with
the configuration error and performs no effect. -/
theorem C4_witness :
    (∃ msg, (runTask (fun s => s) (fun _ => 0) 0 envNaN resLow).outcome
        = some (TaskError.configError msg))
    ∧ (runTask (fun s => s) (fun _ => 0) 0 envNaN resLow).effects = [] :=
  ⟨(C4_config_gate (fun s => s) (fun _ => 0) 0 envNaN resLow).1.mpr
      (Or.inl rfl),
   (C4_config_gate (fun s => s) (fun _ => 0) 0 envNaN resLow).2
      (Or.inl rfl)⟩

/-! ### C5 — transport gate before any feature construction -/

/-- C5: with a valid configuration, a non-ok HTTP response makes the run
throw the transport error carrying the response's status code and status
text, with the fetch as its only effect — nothing is submitted and no
feature is constructed; an ok response never raises a transport error. -/
theorem C5_transport_gate (fmtNZ : String → String) (parseMs : String → Int)
    (now : Int) (env : Env) (res : FetchResult) (m : ℚ)
    (hm : env.minCustomers = some m) (h0 : 0 ≤ m) :
    (res.ok = false →
       runTask fmtNZ parseMs now env res
         = ⟨[Effect.fetchEff (buildUrl m env)],
            some (TaskError.transportError res.status res.statusText)⟩)
    ∧ (res.ok = true →
       ∀ st stx, (runTask fmtNZ parseMs now env res).outcome
         ≠ some (TaskError.transportError st stx)) := by
  have hneg : ¬ m < 0 := not_lt.mpr h0
  constructor
  · intro hok
    simp [runTask, hm, hneg, hok]
  · intro hok st stx
    simp [runTask, hm, hneg, hok]

/-- C5, witness: an HTTP 503 response with a valid configuration yields the
transport error `503 Service Unavailable` and only the fetch effect. -/
theorem C5_witness :
    runTask (fun s => s) (fun _ => 0) 0 envMin5 res503
      = ⟨[Effect.fetchEff (buildUrl 5 envMin5)],
         some (TaskError.transportError 503 "Service Unavailable")⟩ :=
  (C5_transport_gate (fun s => s) (fun _ => 0) 0 envMin5 res503 5 rfl
    (by decide)).1 rfl

/-! ### C6 — query-string construction -/

/-- C6: for every valid threshold (≥ 0), the query parameter list contains
`minCustomers` iff the threshold is strictly positive, contains `utility`
iff the utility filter is set (truthy), and contains `outageType` iff the
outage-type filter is set (truthy). -/
theorem C6_query_params (m : ℚ) (env : Env) (h0 : 0 ≤ m) :
    ((∃ v, ("minCustomers", v) ∈ buildParams m env) ↔ 0 < m)
    ∧ ((∃ v, ("utility", v) ∈ buildParams m env)
        ↔ truthyStr env.utilityFilter = true)
    ∧ ((∃ v, ("outageType", v) ∈ buildParams m env)
        ↔ truthyStr env.outageTypeFilter = true) := by
  by_cases hp : 0 < m <;>
    cases hu : truthyStr env.utilityFilter <;>
      cases ht : truthyStr env.outageTypeFilter <;>
        simp [buildParams, hp, hu, ht]

/-- C6, witness: threshold 0 with a utility filter set — no `minCustomers`
parameter, a `utility` parameter, no `outageType` parameter. -/
theorem C6_witness :
    (¬ ∃ v, ("minCustomers", v) ∈ buildParams 0 envFiltered)
    ∧ (∃ v, ("utility", v) ∈ buildParams 0 envFiltered)
    ∧ (¬ ∃ v, ("outageType", v) ∈ buildParams 0 envFiltered) :=
  ⟨fun h => by
      have := (C6_query_params 0 envFiltered (by decide)).1.mp h
      exact absurd this (by decide),
   (C6_query_params 0 envFiltered (by decide)).2.1.mpr (by decide),
   fun h => by
      have := (C6_query_params 0 envFiltered (by decide)).2.2.mp h
      simp [envFiltered, truthyStr] at this⟩

end PowerOutages
